import Mathlib

/-!
Verification of the order-construction core of the shopify-demo repository.

The repository builds order-creation payloads for a remote e-commerce API.
The logic verified here is the pure payload-construction arithmetic:

* `cmd/create_order/main.go` — strategy classification (`main`), the GraphQL
  line-item/discount builder (`buildOrderInputForGraphQL`), the draft-order
  builder (`buildDraftOrderFromInput`) and `applyUnicodeStrikethrough`;
* `cmd/test_draft_order_tax/main.go` — proportional tax distribution
  (`buildOrderInputWithOriginalPrice` / `buildOrderInputFromInput`) and the
  order-level discount-code builder;
* `app/create_order_package.go` — `GetFulfillmentOrdersWithRetry` and the
  `userErrors` post-processing shared by `CreateDraftOrder` / `CreateOrder`.

Modelling conventions:

* Go `float64` arithmetic is modelled with exact rationals (`ℚ`).  The claims
  under scrutiny are about cent-level quantities, robust to the last-ulp
  differences between binary floating point and exact arithmetic.
* A Go price/rate string is modelled by `PStr`: the literal text together with
  the number it parses to (`none` models a `strconv.ParseFloat` error; an
  empty text never parses).
* `math.Round` (round half away from zero) is `goRound`; `fmt.Sprintf "%.2f"`
  is `fmt2` (Go formats the already-rounded values appearing in this code
  exactly, so rounding mode subtleties of `%.2f` itself do not arise).
* I/O, HTTP transport and JSON decoding are outside the model; the functions
  below are the pure payload computations the claims are about, with the
  transport result (for the retry loop) abstracted as a function from attempt
  index to outcome.
-/

/-- Model of a Go string holding a decimal number: the raw text together with
the value `strconv.ParseFloat` would produce (`none` = parse error; by
convention the empty string never parses). -/
structure PStr where
  text : String
  val : Option ℚ
deriving DecidableEq, Repr

/-- A `PStr` that parses: carries both the literal text and its value. -/
def PStr.num (s : String) (q : ℚ) : PStr := ⟨s, some q⟩

/-- The empty string (`parsePrice` rejects it before parsing). -/
def PStr.none' : PStr := ⟨"", none⟩

/-- Source `parsePrice` from both main.go files: empty string → not ok, otherwise the
result of `strconv.ParseFloat`. -/
def parsePrice (p : PStr) : Option ℚ :=
  if p.text = "" then none else p.val

/-- Go's `value, _ := strconv.ParseFloat(s, 64)` idiom: the parsed value with
the error discarded, leaving `0` on failure. -/
def goParseFloat (p : PStr) : ℚ := p.val.getD 0

/-- Go's `math.Round`: round half away from zero, as an integer result. -/
def goRound (q : ℚ) : ℤ :=
  if 0 ≤ q then ⌊q + 1 / 2⌋ else -⌊-q + 1 / 2⌋

/-- Source `math.Round(x*100)/100` — round to 2 decimal places. -/
def round2c (q : ℚ) : ℚ := (goRound (q * 100) : ℚ) / 100

/-- Left-pad a digit string with zeros to width `d`. -/
def zeroPad (d : ℕ) (s : String) : String :=
  String.mk (List.replicate (d - s.length) '0') ++ s

/-- Model of Go `fmt.Sprintf` with a fixed-point verb of `d` decimals applied
to a rational value. -/
def fmtDec (d : ℕ) (q : ℚ) : String :=
  let scaled := goRound (q * ((10 : ℚ) ^ d))
  let sign := if scaled < 0 then ("-") else ("")
  let m := scaled.natAbs
  sign ++ toString (m / 10 ^ d) ++ "." ++ zeroPad d (toString (m % 10 ^ d))

/-- Go `fmt.Sprintf("%.2f", q)`. -/
def fmt2 (q : ℚ) : String := fmtDec 2 q

/-- Go `fmt.Sprintf("%.4f", q)`. -/
def fmt4 (q : ℚ) : String := fmtDec 4 q

/-- Contiguous-sublist test on character lists (Go `strings.Contains`). -/
def containsSubAux (sub : List Char) : List Char → Bool
  | [] => sub.isEmpty
  | c :: rest => sub.isPrefixOf (c :: rest) || containsSubAux sub rest

/-- Go `strings.Contains(s, sub)`. -/
def strContains (s sub : String) : Bool := containsSubAux sub.data s.data

/-- Go `strings.TrimSpace`: drop leading and trailing whitespace (modelled
structurally over the character list). -/
def goTrim (s : String) : String :=
  String.mk (((s.data.dropWhile Char.isWhitespace).reverse.dropWhile
    Char.isWhitespace).reverse)

namespace CreateOrder

/-! Embedding of `cmd/create_order/main.go`. -/

/-- Source `DiscountApplicationData` from create_order/main.go. -/
structure DiscountApplicationData where
  title : String
  value : PStr
  valueType : String
  amount : PStr
deriving DecidableEq, Repr

/-- Source `ItemData` from create_order/main.go (fields used by the payload
builders; untouched display-only fields are omitted). -/
structure ItemData where
  productId : String
  quantity : ℤ
  price : PStr
  originPrice : PStr
  totalTax : PStr
  taxable : Bool
  name : String
  totalDiscount : PStr
  discountApplications : List DiscountApplicationData
deriving DecidableEq, Repr

/-- Source `TaxLineData` from create_order/main.go. -/
structure TaxLineData where
  rate : PStr
  price : PStr
  title : String
  isUsed : Bool
deriving DecidableEq, Repr

/-- Source `OrderData` from create_order/main.go (fields consumed by the strategy
selection and the discount builders). -/
structure OrderData where
  taxLines : List TaxLineData
  totalTax : PStr
  items : List ItemData
  totalDiscounts : PStr
  discountApplications : List DiscountApplicationData
  subtotalPrice : PStr
deriving DecidableEq, Repr

/-- The three order-creation strategies selected in `main`
(create_order/main.go lines 125–249). -/
inductive Strategy where
  | graphQLOrderCreate
  | restOrderWithTax
  | draftOrderFlow
deriving DecidableEq, Repr

/-- Source `hasTax := len(inputData.Order.TaxLines) > 0` (main, line 126). -/
def hasTax (o : OrderData) : Bool := o.taxLines.length > 0

/-- The `hasDiscount` computation of `main` (lines 127–136): any item with
discount applications or a non-empty totalDiscount, or an order-level
`TotalDiscounts` that is non-empty and not "0.00". -/
def hasDiscount (o : OrderData) : Bool :=
  (o.items.any fun item =>
    item.discountApplications.length > 0 || item.totalDiscount.text != "") ||
  (o.totalDiscounts.text != "" && o.totalDiscounts.text != "0.00")

/-- The strategy branching of `main` (lines 138–249): tax and discount →
GraphQL orderCreate; tax only → REST /orders.json; otherwise the draft-order
flow. -/
def classify (o : OrderData) : Strategy :=
  if hasTax o && hasDiscount o then .graphQLOrderCreate
  else if hasTax o then .restOrderWithTax
  else .draftOrderFlow

/-- The metadata-title test of `buildOrderInputForGraphQL` (lines 659–662):
trim the title, then skip if it contains "Original Price", "<s>" or "</s>". -/
def isMetadataTitle (t : String) : Bool :=
  let title := goTrim t
  strContains title ("Original Price") || strContains title ("<s>") || strContains title ("</s>")

/-- One iteration of the discount loop of `buildOrderInputForGraphQL`
(lines 657–676): skip metadata titles; a percentage discount subtracts
`currentPrice * value / 100`, a fixed discount subtracts the parsed amount;
each applied discount appends one descriptive note; an unrecognised value
type subtracts nothing and notes nothing. -/
def gqlApplyDiscount (acc : ℚ × List String) (d : DiscountApplicationData) :
    ℚ × List String :=
  if isMetadataTitle d.title then acc
  else
    let discountAmount : ℚ :=
      if d.valueType = "percentage" then acc.1 * goParseFloat d.value / 100
      else if d.valueType = "fixed_amount" then (parsePrice d.amount).getD 0
      else 0
    let notes : List String :=
      if d.valueType = "percentage" then
        acc.2 ++ [d.value.text ++ "% off (" ++ d.title ++ ")"]
      else if d.valueType = "fixed_amount" then
        acc.2 ++ ["$" ++ d.amount.text ++ " (" ++ d.title ++ ")"]
      else acc.2
    (acc.1 - discountAmount, notes)

/-- The original-price resolution of `buildOrderInputForGraphQL`
(lines 644–647): parse `Price` (0 on failure); if that is 0 and `OriginPrice`
is non-empty, parse `OriginPrice` instead. -/
def gqlOriginalPrice (item : ItemData) : ℚ :=
  let p := (parsePrice item.price).getD 0
  if p = 0 ∧ item.originPrice.text ≠ "" then (parsePrice item.originPrice).getD 0
  else p

/-- The discounted price and discount notes computed by
`buildOrderInputForGraphQL` for one line item (lines 649–682). -/
def gqlLineCalc (item : ItemData) : ℚ × List String :=
  let originalPrice := gqlOriginalPrice item
  if item.discountApplications.length > 0 then
    item.discountApplications.foldl gqlApplyDiscount (originalPrice, [])
  else if item.totalDiscount.text ≠ "" then
    (originalPrice - (parsePrice item.totalDiscount).getD 0,
      ["$" ++ item.totalDiscount.text])
  else (originalPrice, [])

/-- The discounted unit price emitted in the line item's `priceSet`
(line 701: `fmt.Sprintf("%.2f", discountedPrice)` of this value). -/
def gqlDiscountedUnitPrice (item : ItemData) : ℚ := (gqlLineCalc item).1

/-- The accumulated discount notes for one line item. -/
def gqlDiscountNotes (item : ItemData) : List String := (gqlLineCalc item).2

/-- Source `applyUnicodeStrikethrough` (lines 805–815): write each rune followed by
U+0336 COMBINING LONG STROKE OVERLAY. -/
def applyUnicodeStrikethrough (text : String) : String :=
  String.mk (text.data.foldl (fun acc c => acc ++ [c, Char.ofNat 0x336]) [])

/-- The "Original Price" property value of `buildOrderInputForGraphQL`
(lines 687–696): present only when some discount note was produced. -/
def gqlOriginalPriceValue (item : ItemData) : String :=
  if (gqlDiscountNotes item).length > 0 then
    applyUnicodeStrikethrough ("$" ++ fmt2 (gqlOriginalPrice item))
  else ("")

/-- The "Line item discount" property value (line 695): the notes joined by
newlines, present only when a note was produced. -/
def gqlLineItemDiscountValue (item : ItemData) : String :=
  if (gqlDiscountNotes item).length > 0 then
    String.intercalate ("\n") (gqlDiscountNotes item)
  else ("")

/-- Source `AppliedDiscountInput` from the app package, as filled in by
`buildDraftOrderFromInput`. -/
structure AppliedDiscountInput where
  title : String
  description : String
  valueType : String
  value : ℚ
deriving DecidableEq, Repr

/-- The order-level `AppliedDiscount` of `buildDraftOrderFromInput`
(lines 367–410): first explicit application if any; else derive a percentage
from `TotalDiscounts / SubtotalPrice` when the subtotal parses positive; else
a fixed amount of the parsed `TotalDiscounts`.  Unparseable `TotalDiscounts`
yields no discount. -/
def buildDraftAppliedDiscount (o : OrderData) : Option AppliedDiscountInput :=
  match o.discountApplications with
  | d :: _ =>
    if d.valueType = "percentage" then
      some ⟨d.title, d.title, "PERCENTAGE", round2c (goParseFloat d.value)⟩
    else
      some ⟨d.title, d.title, "FIXED_AMOUNT",
        match parsePrice d.amount with
        | some a => round2c a
        | none => 0⟩
  | [] =>
    if o.totalDiscounts.text ≠ "" then
      match parsePrice o.totalDiscounts with
      | some totalDiscount =>
        match parsePrice o.subtotalPrice with
        | some subtotal =>
          if subtotal > 0 then
            some ⟨"Order Discount", "Discount: " ++ o.totalDiscounts.text,
              "PERCENTAGE", round2c (totalDiscount / subtotal * 100)⟩
          else
            some ⟨"Order Discount", "Discount: " ++ o.totalDiscounts.text,
              "FIXED_AMOUNT", round2c totalDiscount⟩
        | none =>
          some ⟨"Order Discount", "Discount: " ++ o.totalDiscounts.text,
            "FIXED_AMOUNT", round2c totalDiscount⟩
      | none => none
    else none

/-- The per-line-item `AppliedDiscount` of `buildDraftOrderFromInput`
(lines 433–472): first explicit application if any; else a discount derived
from the item's `TotalDiscount` (percentage of its price when the price
parses positive, fixed amount otherwise). -/
def buildLineAppliedDiscount (item : ItemData) : Option AppliedDiscountInput :=
  match item.discountApplications with
  | d :: _ =>
    if d.valueType = "percentage" then
      some ⟨d.title, d.title, "PERCENTAGE", round2c (goParseFloat d.value)⟩
    else
      some ⟨d.title, d.title, "FIXED_AMOUNT",
        match parsePrice d.amount with
        | some a => round2c a
        | none => 0⟩
  | [] =>
    if item.totalDiscount.text ≠ "" then
      match parsePrice item.totalDiscount with
      | some totalDiscount =>
        match parsePrice item.price with
        | some price =>
          if price > 0 then
            some ⟨"Item Discount", "Discount: " ++ item.totalDiscount.text,
              "PERCENTAGE", totalDiscount / price * 100⟩
          else
            some ⟨"Item Discount", "Discount: " ++ item.totalDiscount.text,
              "FIXED_AMOUNT", totalDiscount⟩
        | none =>
          some ⟨"Item Discount", "Discount: " ++ item.totalDiscount.text,
            "FIXED_AMOUNT", totalDiscount⟩
      | none => none
    else none

/-- The order-level discount code produced by `buildOrderInputForGraphQL`
(lines 759–798): percentage or fixed code from the first explicit
application; otherwise, for any non-empty `TotalDiscounts`, a fixed-amount
code of the parsed value (0 on parse failure) — note there is no
percentage-derivation branch here. -/
inductive OrderDiscountCode where
  | percentage (code : String) (pct : ℚ)
  | fixedAmount (code : String) (amount : String)
deriving DecidableEq, Repr

/-- Whether an optional discount code is a percentage code. -/
def isPercentageCode : Option OrderDiscountCode → Bool
  | some (.percentage _ _) => true
  | _ => false

/-- Source `buildOrderInputForGraphQL`'s order-level discount (lines 759–798). -/
def buildGqlOrderDiscountCode (o : OrderData) : Option OrderDiscountCode :=
  match o.discountApplications with
  | d :: _ =>
    if d.valueType = "percentage" then
      some (.percentage d.title (goParseFloat d.value))
    else if d.valueType = "fixed_amount" then
      some (.fixedAmount d.title (fmt2 ((parsePrice d.amount).getD 0)))
    else none
  | [] =>
    if o.totalDiscounts.text ≠ "" then
      some (.fixedAmount ("Order Discount") (fmt2 ((parsePrice o.totalDiscounts).getD 0)))
    else none

end CreateOrder

namespace DraftTax

/-! Embedding of `cmd/test_draft_order_tax/main.go`. -/

/-- Source `DiscountApplicationData` from test_draft_order_tax/main.go. -/
structure DiscountApplicationData where
  title : String
  value : PStr
  valueType : String
  amount : PStr
deriving DecidableEq, Repr

/-- Source `ItemData` from test_draft_order_tax/main.go (fields used by the tax
distribution and discount builders; display-only fields omitted). -/
structure ItemData where
  productId : String
  quantity : ℤ
  price : PStr
  originPrice : PStr
  totalTax : PStr
  totalDiscount : PStr
  discountApplications : List DiscountApplicationData
  priceExTax : PStr
deriving DecidableEq, Repr

/-- Source `TaxLineData` from test_draft_order_tax/main.go. -/
structure TaxLineData where
  rate : PStr
  price : PStr
  title : String
  isUsed : Bool
deriving DecidableEq, Repr

/-- Source `OrderData` from test_draft_order_tax/main.go (fields consumed by the
embedded builders). -/
structure OrderData where
  taxLines : List TaxLineData
  items : List ItemData
  totalDiscounts : PStr
  discountApplications : List DiscountApplicationData
  subtotalPrice : PStr
deriving DecidableEq, Repr

/-- The per-item pre-tax extended price, as computed identically in
`buildOrderInputWithOriginalPrice` (lines 289–298) and
`buildOrderInputFromInput` (lines 523–532): prefer `PriceExTax × quantity`;
else `(Price − TotalTax) × quantity` when both parse; else
`Price × quantity`; 0 when nothing parses. -/
def itemPriceExTax (item : ItemData) : ℚ :=
  match parsePrice item.priceExTax with
  | some px => px * item.quantity
  | none =>
    match parsePrice item.price with
    | some p =>
      match parsePrice item.totalTax with
      | some tt => (p - tt) * item.quantity
      | none => p * item.quantity
    | none => 0

/-- The total pre-tax extended price over all items (lines 300–312 and
534–546: the same expression summed over the item list). -/
def totalPriceExTax (items : List ItemData) : ℚ :=
  (items.map itemPriceExTax).sum

/-- One distributed tax line as attached to a line item. -/
structure TaxPortion where
  title : String
  rate : String
  amount : ℚ
deriving DecidableEq, Repr

/-- The tax portion attached for one used order-level tax line: amount =
`math.Round(orderTaxPrice * itemProportion * 100) / 100`, rate formatted
"%.4f" (lines 316–334 and 550–568). -/
def taxPortionEntry (o : OrderData) (item : ItemData) (tl : TaxLineData) :
    TaxPortion :=
  { title := tl.title
    rate := fmt4 (goParseFloat tl.rate)
    amount := round2c ((parsePrice tl.price).getD 0 *
      (itemPriceExTax item / totalPriceExTax o.items)) }

/-- The tax-distribution step for one line item, shared verbatim between
`buildOrderInputWithOriginalPrice` (lines 286–339) and
`buildOrderInputFromInput` (lines 519–573): guarded by
`totalPriceExTax > 0`; iterates the order tax lines, skipping unused ones.
(The model folds the surrounding `len(TaxLines) > 0` test into the map over
the list, which is empty exactly when that test fails.) -/
def distributeTaxForItem (o : OrderData) (item : ItemData) : List TaxPortion :=
  if totalPriceExTax o.items > 0 then
    (o.taxLines.filter (fun tl => tl.isUsed)).map (taxPortionEntry o item)
  else []

/-- The sum, over all line items, of the tax amounts the distribution step
attaches for the used tax lines. -/
def distributedTaxSum (o : OrderData) : ℚ :=
  (o.items.map (fun item =>
    ((distributeTaxForItem o item).map TaxPortion.amount).sum)).sum

/-- The order-level discount code of `buildOrderInputFromInput`
(lines 418–474): first explicit application if any (percentage from its
value; fixed from its amount, but only when that amount parses); else, for a
parseable `TotalDiscounts`, a percentage `total ÷ subtotal × 100` rounded to
2 decimals when the subtotal parses positive, else a fixed amount. -/
def buildOrderDiscountCode (o : OrderData) : Option CreateOrder.OrderDiscountCode :=
  match o.discountApplications with
  | d :: _ =>
    if d.valueType = "percentage" then
      some (.percentage d.title (goParseFloat d.value))
    else
      match parsePrice d.amount with
      | some a => some (.fixedAmount d.title (fmt2 a))
      | none => none
  | [] =>
    if o.totalDiscounts.text ≠ "" then
      match parsePrice o.totalDiscounts with
      | some totalDiscount =>
        match parsePrice o.subtotalPrice with
        | some subtotal =>
          if subtotal > 0 then
            some (.percentage ("Order Discount")
              (round2c (totalDiscount / subtotal * 100)))
          else
            some (.fixedAmount ("Order Discount") (fmt2 totalDiscount))
        | none => some (.fixedAmount ("Order Discount") (fmt2 totalDiscount))
      | none => none
    else none

end DraftTax

namespace App

/-! Embedding of `app/create_order_package.go`. -/

/-- Source `FulfillmentOrderInfo` (payload fields irrelevant to the retry control
flow are summarised by the identifying fields). -/
structure FulfillmentOrderInfo where
  id : String
  status : String
  requestStatus : String
deriving DecidableEq, Repr

/-- The terminal error of `GetFulfillmentOrdersWithRetry` (line 447):
`failed after %d retries: %w` wrapping the last error. -/
def retryFailMsg (maxRetries : ℕ) (lastErr : Option String) : String :=
  "failed after " ++ toString maxRetries ++ " retries: " ++
    (match lastErr with | some e => e | none => "<nil>")

/-- The retry loop of `GetFulfillmentOrdersWithRetry` (lines 426–448),
with the transport abstracted as `attempt : attempt index → outcome` and the
slept delays collected in a list (delays in seconds as exact rationals; the
values arising from 3s × 1.5ⁿ are exact in Go's nanosecond arithmetic too).
An error-free result — even an empty list — returns immediately; only an
error triggers a sleep (except after the final attempt) and another try. -/
def retryLoop (attempt : ℕ → Except String (List FulfillmentOrderInfo))
    (maxRetries : ℕ) :
    ℕ → ℕ → ℚ → Option String → List ℚ →
    Except String (List FulfillmentOrderInfo) × List ℚ
  | _, 0, _, lastErr, delays => (.error (retryFailMsg maxRetries lastErr), delays)
  | i, remaining + 1, delay, _, delays =>
    match attempt i with
    | .ok res => (.ok res, delays)
    | .error e =>
      if remaining > 0 then
        retryLoop attempt maxRetries (i + 1) remaining (delay * (3 / 2))
          (some e) (delays ++ [delay])
      else
        retryLoop attempt maxRetries (i + 1) 0 delay (some e) delays

/-- Source `GetFulfillmentOrdersWithRetry(orderID, maxRetries, initialDelay)`: run
the loop from attempt 0. -/
def getFulfillmentOrdersWithRetry
    (attempt : ℕ → Except String (List FulfillmentOrderInfo))
    (maxRetries : ℕ) (initialDelay : ℚ) :
    Except String (List FulfillmentOrderInfo) × List ℚ :=
  retryLoop attempt maxRetries 0 maxRetries initialDelay none []

/-- Source `UserError` from create_order_package.go (Field []string, Message). -/
structure UserError where
  field : List String
  message : String
deriving DecidableEq, Repr

/-- Go `fmt`'s "%v" rendering of a `[]string`. -/
def goSliceFmt (l : List String) : String :=
  "[" ++ String.intercalate (" ") l ++ "]"

/-- The error message accumulated from a `userErrors` collection
(`CreateDraftOrder` lines 291–297, `CreateOrder` lines 797–803):
`"User errors: "` followed by `"%v: %s; "` per entry. -/
def userErrorsMessage (errs : List UserError) : String :=
  errs.foldl
    (fun acc e => acc ++ (goSliceFmt e.field ++ ": " ++ e.message ++ "; "))
    "User errors: "

/-- The shared post-transport `userErrors` check of `CreateDraftOrder` and
`CreateOrder`: a non-empty collection turns the transport-successful response
into an error (nil result); otherwise the response is returned. -/
def checkUserErrors {α : Type} (response : α) (errs : List UserError) :
    Except String α :=
  if errs.length > 0 then .error (userErrorsMessage errs) else .ok response

end App

/-! Concrete inputs used by the witnesses and counterexamples below. -/

/-- A line item whose single fixed-amount discount exceeds its price. -/
def itemNeg : CreateOrder.ItemData :=
  ⟨"101", 1, PStr.num ("10.00") 10, PStr.none', PStr.none', true, "Widget",
    PStr.none', [⟨"Big Sale", PStr.none', "fixed_amount", PStr.num ("20.00") 20⟩]⟩

/-- A $100.00 line item with a single 20% discount. -/
def item20 : CreateOrder.ItemData :=
  ⟨"102", 1, PStr.num ("100.00") 100, PStr.none', PStr.none', true, "Widget",
    PStr.none', [⟨"Promo", PStr.num ("20") 20, "percentage", PStr.none'⟩]⟩

/-- A $100.00 line item with two percentage discounts (20% then 10%). -/
def item2pct : CreateOrder.ItemData :=
  ⟨"103", 1, PStr.num ("100.00") 100, PStr.none', PStr.none', true, "Widget",
    PStr.none',
    [⟨"A", PStr.num ("20") 20, "percentage", PStr.none'⟩,
     ⟨"B", PStr.num ("10") 10, "percentage", PStr.none'⟩]⟩

/-- The metadata discount entry of the spec scenario. -/
def dOrig : CreateOrder.DiscountApplicationData :=
  ⟨"Original Price <s>100</s>", PStr.none', "fixed_amount", PStr.num ("100") 100⟩

/-- A $100.00 line item whose only discount carries the metadata title. -/
def itemOrig : CreateOrder.ItemData :=
  ⟨"104", 1, PStr.num ("100.00") 100, PStr.none', PStr.none', true, "Widget",
    PStr.none', [dOrig]⟩

/-- A used VAT tax line in the create_order shape. -/
def tlVATc : CreateOrder.TaxLineData :=
  ⟨PStr.num ("0.085") (17 / 200), PStr.num ("8.50") (17 / 2), "VAT", true⟩

/-- An order with neither tax lines nor discounts. -/
def oNeither : CreateOrder.OrderData :=
  ⟨[], PStr.none',
    [⟨"105", 1, PStr.num ("100.00") 100, PStr.none', PStr.none', true, "Widget",
       PStr.none', []⟩],
    PStr.none', [], PStr.none'⟩

/-- An order with a tax line and no discounts. -/
def oTaxOnly : CreateOrder.OrderData :=
  ⟨[tlVATc], PStr.num ("8.50") (17 / 2), oNeither.items, PStr.none', [], PStr.none'⟩

/-- An order with both a tax line and an order-level total discount. -/
def oBoth : CreateOrder.OrderData :=
  ⟨[tlVATc], PStr.num ("8.50") (17 / 2), oNeither.items, PStr.num ("10.00") 10, [],
    PStr.num ("100.00") 100⟩

/-- A used order-level VAT tax line in the test_draft_order_tax shape. -/
def tlVAT : DraftTax.TaxLineData :=
  ⟨PStr.num ("0.085") (17 / 200), PStr.num ("8.50") (17 / 2), "VAT", true⟩

/-- A single $100.00 line item. -/
def item100 : DraftTax.ItemData :=
  ⟨"201", 1, PStr.num ("100.00") 100, PStr.none', PStr.none', PStr.none', [],
    PStr.none'⟩

/-- The spec's tax scenario: subtotal $100.00, one VAT line of $8.50. -/
def oVAT : DraftTax.OrderData := ⟨[tlVAT], [item100], PStr.none', [], PStr.none'⟩

/-- A $1.00 line item. -/
def itemOne : DraftTax.ItemData :=
  ⟨"202", 1, PStr.num ("1.00") 1, PStr.none', PStr.none', PStr.none', [],
    PStr.none'⟩

/-- A used tax line of $0.12. -/
def tl12 : DraftTax.TaxLineData :=
  ⟨PStr.num ("0.05") (1 / 20), PStr.num ("0.12") (3 / 25), "VAT", true⟩

/-- Five equal $1.00 items with a $0.12 order-level tax line: each item gets
`round(0.024) = 0.02`, so the distributed total is $0.10, two cents short. -/
def oFive : DraftTax.OrderData :=
  ⟨[tl12], List.replicate 5 itemOne, PStr.none', [], PStr.none'⟩

/-- A line item none of whose price fields parse. -/
def itemBlank : DraftTax.ItemData :=
  ⟨"203", 1, PStr.none', PStr.none', PStr.none', PStr.none', [], PStr.none'⟩

/-- An order whose total pre-tax extended price is zero. -/
def oZero : DraftTax.OrderData := ⟨[tl12], [itemBlank], PStr.none', [], PStr.none'⟩

/-- A fulfillment-order record. -/
def fo1 : App.FulfillmentOrderInfo :=
  ⟨"gid://shopify/FulfillmentOrder/1", "OPEN", "UNSUBMITTED"⟩

/-- Lookup outcomes: zero records (no error) on attempts 0–3, one record on
attempt 4 — the scenario named by the claim. -/
def attemptsEmptyThenOne : ℕ → Except String (List App.FulfillmentOrderInfo) :=
  fun i => if i = 4 then .ok [fo1] else .ok []

/-- Lookup outcomes: transport errors on attempts 0–3, one record on
attempt 4. -/
def attemptsErrThenOne : ℕ → Except String (List App.FulfillmentOrderInfo) :=
  fun i => if i < 4 then .error ("routing not complete") else .ok [fo1]

/-- An order with no explicit discount applications, TotalDiscounts "10.00"
and a positive SubtotalPrice "100.00". -/
def oc8 : CreateOrder.OrderData :=
  ⟨[], PStr.none', [], PStr.num ("10.00") 10, [], PStr.num ("100.00") 100⟩

/-- Same but with no parseable subtotal. -/
def oc8NoSub : CreateOrder.OrderData :=
  ⟨[], PStr.none', [], PStr.num ("10.00") 10, [], PStr.none'⟩

/-- The oc8 data in the test_draft_order_tax shape. -/
def oDT : DraftTax.OrderData :=
  ⟨[], [], PStr.num ("10.00") 10, [], PStr.num ("100.00") 100⟩

/-- Two explicit discount applications. -/
def dVIP : CreateOrder.DiscountApplicationData :=
  ⟨"VIP", PStr.num ("15") 15, "percentage", PStr.none'⟩

/-- A second discount application, to be dropped. -/
def dExtra : CreateOrder.DiscountApplicationData :=
  ⟨"Extra", PStr.num ("5") 5, "percentage", PStr.none'⟩

/-- An order carrying two order-level discount applications. -/
def oTwoApps : CreateOrder.OrderData :=
  ⟨[], PStr.none', [], PStr.none', [dVIP, dExtra], PStr.none'⟩

/-- The same order with only the first application. -/
def oOneApp : CreateOrder.OrderData :=
  ⟨[], PStr.none', [], PStr.none', [dVIP], PStr.none'⟩

/-- A line item carrying two discount applications. -/
def itemTwoApps : CreateOrder.ItemData :=
  ⟨"106", 1, PStr.num ("50.00") 50, PStr.none', PStr.none', true, "Widget",
    PStr.none', [dVIP, dExtra]⟩

/-- The same line item with only the first application. -/
def itemOneApp : CreateOrder.ItemData :=
  ⟨"106", 1, PStr.num ("50.00") 50, PStr.none', PStr.none', true, "Widget",
    PStr.none', [dVIP]⟩

/-- A one-element userErrors collection. -/
def errsEx : List App.UserError := [⟨["base"], "variant not found"⟩]

/-! Spec-side renderings, written from the claim wording, to be compared
with the builder output. -/

/-- Spec wording: a discount application actually applied by the GraphQL
line-item builder — not a metadata marker, and of a recognised value type. -/
def specApplied (d : CreateOrder.DiscountApplicationData) : Bool :=
  !CreateOrder.isMetadataTitle d.title &&
    (d.valueType == "percentage" || d.valueType == "fixed_amount")

/-- Spec wording: the descriptive string per applied discount — "N% off
(title)" for percentage discounts, "$amount (title)" for fixed-amount
discounts. -/
def specDiscountNote (d : CreateOrder.DiscountApplicationData) : String :=
  if d.valueType = "percentage" then d.value.text ++ "% off (" ++ d.title ++ ")"
  else ("$") ++ d.amount.text ++ " (" ++ d.title ++ ")"

/-- The sum over the line items of the portion a given tax line contributes,
per `taxPortionEntry`. -/
def DraftTax.distributedTaxSumFor (o : DraftTax.OrderData)
    (tl : DraftTax.TaxLineData) : ℚ :=
  (o.items.map (fun item => (DraftTax.taxPortionEntry o item tl).amount)).sum

/-- Spec wording: all userErrors entries concatenated into one descriptive
message after the "User errors: " header. -/
def specUserErrorsMessage (errs : List App.UserError) : String :=
  "User errors: " ++
    String.join (errs.map fun e => App.goSliceFmt e.field ++ ": " ++ e.message ++ "; ")

/-! Helper lemmas (shared; not themselves claim theorems). -/

/-- Evaluation: parsing a non-empty numeric string yields its value. -/
theorem parsePrice_num (s : String) (q : ℚ) (h : ¬ s = "") :
    parsePrice (PStr.num s q) = some q := by
  simp [parsePrice, PStr.num, h]

/-- Evaluation: parsing the empty string fails. -/
theorem parsePrice_empty : parsePrice PStr.none' = none := by
  simp [parsePrice, PStr.none']

/-- A metadata-titled discount application leaves the accumulator unchanged. -/
theorem gqlApplyDiscount_metadata (acc : ℚ × List String)
    (d : CreateOrder.DiscountApplicationData)
    (h : CreateOrder.isMetadataTitle d.title = true) :
    CreateOrder.gqlApplyDiscount acc d = acc := by
  simp [CreateOrder.gqlApplyDiscount, h]

/-- A fold over discount applications that are all metadata-titled is the
identity. -/
theorem gqlFold_skip_all (ds : List CreateOrder.DiscountApplicationData)
    (acc : ℚ × List String)
    (h : ∀ d ∈ ds, CreateOrder.isMetadataTitle d.title = true) :
    ds.foldl CreateOrder.gqlApplyDiscount acc = acc := by
  induction ds generalizing acc with
  | nil => rfl
  | cons d ds ih =>
    rw [List.foldl_cons, gqlApplyDiscount_metadata acc d (h d (by simp))]
    exact ih acc fun x hx => h x (by simp [hx])

/-- A percentage discount application with a non-metadata title reduces the
running price multiplicatively. -/
theorem gqlApplyDiscount_pct (acc : ℚ × List String)
    (d : CreateOrder.DiscountApplicationData)
    (hm : CreateOrder.isMetadataTitle d.title = false)
    (hv : d.valueType = "percentage") :
    CreateOrder.gqlApplyDiscount acc d =
      (acc.1 - acc.1 * goParseFloat d.value / 100,
        acc.2 ++ [d.value.text ++ "% off (" ++ d.title ++ ")"]) := by
  simp [CreateOrder.gqlApplyDiscount, hm, hv]

/-- Folding non-metadata percentage discounts multiplies the price by the
product of the complementary factors (the sequential-application law). -/
theorem gqlFold_pct_prod (ds : List CreateOrder.DiscountApplicationData) :
    ∀ (p : ℚ) (notes : List String),
    (∀ d ∈ ds, CreateOrder.isMetadataTitle d.title = false ∧
      d.valueType = "percentage") →
    (ds.foldl CreateOrder.gqlApplyDiscount (p, notes)).1 =
      p * (ds.map fun d => 1 - goParseFloat d.value / 100).prod := by
  induction ds with
  | nil => intro p notes _; simp
  | cons d ds ih =>
    intro p notes h
    obtain ⟨hm, hv⟩ := h d (by simp)
    rw [List.foldl_cons, gqlApplyDiscount_pct (p, notes) d hm hv]
    rw [ih _ _ fun x hx => h x (by simp [hx])]
    rw [List.map_cons, List.prod_cons]
    ring

/-- The notes accumulated by the fold are exactly one spec-form descriptive
string per applied (non-metadata, recognised-type) discount. -/
theorem gqlFold_notes (ds : List CreateOrder.DiscountApplicationData) :
    ∀ (p : ℚ) (notes : List String),
    (ds.foldl CreateOrder.gqlApplyDiscount (p, notes)).2 =
      notes ++ (ds.filter specApplied).map specDiscountNote := by
  induction ds with
  | nil => intro p notes; simp
  | cons d ds ih =>
    intro p notes
    rw [List.foldl_cons]
    by_cases hm : CreateOrder.isMetadataTitle d.title
    · rw [gqlApplyDiscount_metadata (p, notes) d hm]
      rw [ih p notes]
      simp [specApplied, hm]
    · by_cases hv : d.valueType = "percentage"
      · rw [gqlApplyDiscount_pct (p, notes) d (by simp [hm]) hv]
        rw [ih]
        simp [specApplied, specDiscountNote, hm, hv]
      · by_cases hf : d.valueType = "fixed_amount"
        · have hstep : CreateOrder.gqlApplyDiscount (p, notes) d =
            (p - (parsePrice d.amount).getD 0,
              notes ++ ["$" ++ d.amount.text ++ " (" ++ d.title ++ ")"]) := by
            simp [CreateOrder.gqlApplyDiscount, hm, hv, hf]
          rw [hstep, ih]
          simp [specApplied, specDiscountNote, hm, hv, hf]
        · have hstep : CreateOrder.gqlApplyDiscount (p, notes) d = (p - 0, notes) := by
            simp [CreateOrder.gqlApplyDiscount, hm, hv, hf]
          rw [hstep, ih]
          simp [specApplied, hm, hv, hf]

/-- Folding percentage discounts whose values lie in [0, 100] preserves a
nonnegative running price (metadata-titled entries are skipped and also
preserve it). -/
theorem gqlFold_nonneg (ds : List CreateOrder.DiscountApplicationData) :
    ∀ (p : ℚ) (notes : List String), 0 ≤ p →
    (∀ d ∈ ds, d.valueType = "percentage" ∧ 0 ≤ goParseFloat d.value ∧
      goParseFloat d.value ≤ 100) →
    0 ≤ (ds.foldl CreateOrder.gqlApplyDiscount (p, notes)).1 := by
  induction ds with
  | nil => intro p notes hp _; exact hp
  | cons d ds ih =>
    intro p notes hp h
    obtain ⟨hv, hv0, hv100⟩ := h d (by simp)
    rw [List.foldl_cons]
    by_cases hm : CreateOrder.isMetadataTitle d.title
    · rw [gqlApplyDiscount_metadata (p, notes) d hm]
      exact ih p notes hp fun x hx => h x (by simp [hx])
    · rw [gqlApplyDiscount_pct (p, notes) d (by simp [hm]) hv]
      refine ih _ _ ?_ fun x hx => h x (by simp [hx])
      have : (0 : ℚ) ≤ p * (1 - goParseFloat d.value / 100) := by
        apply mul_nonneg hp
        linarith
      calc (0 : ℚ) ≤ p * (1 - goParseFloat d.value / 100) := this
        _ = p - p * goParseFloat d.value / 100 := by ring

/-- The character-level shape of the strikethrough builder's accumulator. -/
theorem strikeFold_shape (k : Char) (l : List Char) :
    ∀ acc : List Char,
    l.foldl (fun acc c => acc ++ [c, k]) acc =
      acc ++ (l.map fun c => [c, k]).flatten := by
  induction l with
  | nil => intro acc; simp
  | cons c l ih => intro acc; simp [ih]

/-- Accumulating string concatenation is concatenation with the joined
strings. -/
theorem strFoldl_append_join (l : List String) :
    ∀ acc : String, l.foldl (fun a s => a ++ s) acc = acc ++ String.join l := by
  induction l with
  | nil =>
    intro acc
    show acc = acc ++ ""
    simp
  | cons s l ih =>
    intro acc
    have hj : String.join (s :: l) = s ++ String.join l := by
      show List.foldl (fun r t => r ++ t) "" (s :: l) = s ++ String.join l
      rw [List.foldl_cons, show ("" ++ s : String) = s by simp]
      exact ih s
    rw [List.foldl_cons, ih, hj]
    simp [String.append_assoc]

/-- One step of the fulfillment-order retry loop: an error-free attempt
returns immediately with the delays slept so far. -/
theorem retryLoop_ok (attempt : ℕ → Except String (List App.FulfillmentOrderInfo))
    (maxR i r : ℕ) (delay : ℚ) (last : Option String) (delays : List ℚ)
    (res : List App.FulfillmentOrderInfo) (h : attempt i = .ok res) :
    App.retryLoop attempt maxR i (r + 1) delay last delays = (.ok res, delays) := by
  simp [App.retryLoop, h]

/-- One step of the fulfillment-order retry loop: a failing attempt with
attempts remaining sleeps the current delay and retries with the delay
multiplied by 1.5. -/
theorem retryLoop_err (attempt : ℕ → Except String (List App.FulfillmentOrderInfo))
    (maxR i r : ℕ) (delay : ℚ) (last : Option String) (delays : List ℚ)
    (e : String) (h : attempt i = .error e) (hr : 0 < r) :
    App.retryLoop attempt maxR i (r + 1) delay last delays =
      App.retryLoop attempt maxR (i + 1) r (delay * (3 / 2)) (some e)
        (delays ++ [delay]) := by
  simp [App.retryLoop, h, hr]

/-! Claim theorems. -/

/-- C3: strategy classification is a total, deterministic function of the
order draft — `classify` is a Lean function, hence single-valued and defined
on every draft — and maps: neither tax nor discount → the draft-order flow;
tax only → the REST direct-creation path; tax and discount → the GraphQL
direct-creation mutation (and, completing the square, discount only → the
draft-order flow). -/
theorem c3_classify_total_mapping (o : CreateOrder.OrderData) :
    (CreateOrder.hasTax o = false ∧ CreateOrder.hasDiscount o = false →
      CreateOrder.classify o = CreateOrder.Strategy.draftOrderFlow) ∧
    (CreateOrder.hasTax o = true ∧ CreateOrder.hasDiscount o = false →
      CreateOrder.classify o = CreateOrder.Strategy.restOrderWithTax) ∧
    (CreateOrder.hasTax o = true ∧ CreateOrder.hasDiscount o = true →
      CreateOrder.classify o = CreateOrder.Strategy.graphQLOrderCreate) ∧
    (CreateOrder.hasTax o = false ∧ CreateOrder.hasDiscount o = true →
      CreateOrder.classify o = CreateOrder.Strategy.draftOrderFlow) := by
  refine ⟨?_, ?_, ?_, ?_⟩ <;> rintro ⟨h1, h2⟩ <;>
    simp [CreateOrder.classify, h1, h2]

/-- C3 witness: the three listed feature combinations on concrete drafts. -/
theorem c3_witness :
    CreateOrder.classify oNeither = CreateOrder.Strategy.draftOrderFlow ∧
    CreateOrder.classify oTaxOnly = CreateOrder.Strategy.restOrderWithTax ∧
    CreateOrder.classify oBoth = CreateOrder.Strategy.graphQLOrderCreate :=
  ⟨(c3_classify_total_mapping oNeither).1 ⟨by decide, by decide⟩,
   (c3_classify_total_mapping oTaxOnly).2.1 ⟨by decide, by decide⟩,
   (c3_classify_total_mapping oBoth).2.2.1 ⟨by decide, by decide⟩⟩

/-- C6: when the total pre-tax extended price is zero the tax-distribution
step emits no per-item tax lines — the `totalPriceExTax > 0` guard makes the
division-by-zero branch unreachable. -/
theorem c6_zero_total_empty_distribution (o : DraftTax.OrderData)
    (item : DraftTax.ItemData) (h : DraftTax.totalPriceExTax o.items = 0) :
    DraftTax.distributeTaxForItem o item = [] := by
  simp [DraftTax.distributeTaxForItem, h]

/-- C6 witness: an order whose only item has no parseable price fields. -/
theorem c6_witness : DraftTax.distributeTaxForItem oZero itemBlank = [] :=
  c6_zero_total_empty_distribution oZero itemBlank (by
    norm_num [DraftTax.totalPriceExTax, DraftTax.itemPriceExTax, oZero,
      itemBlank, parsePrice, PStr.none'])

/-- C7: a discount application whose (trimmed) title contains "Original
Price", "<s>" or "</s>" is skipped entirely by the GraphQL line-item
builder: it changes neither the running price nor the notes, and an item all
of whose discount applications are such metadata entries keeps its original
price and produces no descriptive strings. -/
theorem c7_metadata_discount_skipped :
    (∀ (acc : ℚ × List String) (d : CreateOrder.DiscountApplicationData),
      CreateOrder.isMetadataTitle d.title = true →
      CreateOrder.gqlApplyDiscount acc d = acc) ∧
    (∀ item : CreateOrder.ItemData,
      0 < item.discountApplications.length →
      (∀ d ∈ item.discountApplications,
        CreateOrder.isMetadataTitle d.title = true) →
      CreateOrder.gqlDiscountedUnitPrice item = CreateOrder.gqlOriginalPrice item ∧
      CreateOrder.gqlDiscountNotes item = []) := by
  refine ⟨gqlApplyDiscount_metadata, ?_⟩
  intro item hlen hall
  have hfold := gqlFold_skip_all item.discountApplications
    (CreateOrder.gqlOriginalPrice item, []) hall
  constructor <;>
    simp [CreateOrder.gqlDiscountedUnitPrice, CreateOrder.gqlDiscountNotes,
      CreateOrder.gqlLineCalc, hlen, hfold]

/-- C7 witness: the spec scenario — a draft whose only discount title is
"Original Price <s>100</s>" keeps the unchanged $100.00 line price and emits
no discount note. -/
theorem c7_witness :
    CreateOrder.gqlDiscountedUnitPrice itemOrig = 100 ∧
    CreateOrder.gqlDiscountNotes itemOrig = [] := by
  have h := c7_metadata_discount_skipped.2 itemOrig (by decide) (by decide)
  refine ⟨h.1.trans ?_, h.2⟩
  norm_num [CreateOrder.gqlOriginalPrice, itemOrig,
    parsePrice_num ("100.00") 100 (by decide), parsePrice_empty, PStr.none']

/-- C10: the draft-order payload builder transmits only the first discount
application of a line item or of the order; the output is unchanged when the
later applications are deleted. -/
theorem c10_only_first_discount_transmitted :
    (∀ (o : CreateOrder.OrderData) (d : CreateOrder.DiscountApplicationData)
      (rest : List CreateOrder.DiscountApplicationData),
      o.discountApplications = d :: rest →
      CreateOrder.buildDraftAppliedDiscount o =
        CreateOrder.buildDraftAppliedDiscount
          { o with discountApplications := [d] }) ∧
    (∀ (item : CreateOrder.ItemData) (d : CreateOrder.DiscountApplicationData)
      (rest : List CreateOrder.DiscountApplicationData),
      item.discountApplications = d :: rest →
      CreateOrder.buildLineAppliedDiscount item =
        CreateOrder.buildLineAppliedDiscount
          { item with discountApplications := [d] }) := by
  constructor
  · intro o d rest h
    simp only [CreateOrder.buildDraftAppliedDiscount, h]
  · intro item d rest h
    simp only [CreateOrder.buildLineAppliedDiscount, h]

/-- C10 witness: with two applications present, the payload equals the one
built from the first application alone. -/
theorem c10_witness :
    CreateOrder.buildDraftAppliedDiscount oTwoApps =
      CreateOrder.buildDraftAppliedDiscount oOneApp ∧
    CreateOrder.buildLineAppliedDiscount itemTwoApps =
      CreateOrder.buildLineAppliedDiscount itemOneApp :=
  ⟨(c10_only_first_discount_transmitted.1 oTwoApps dVIP [dExtra] rfl).trans rfl,
   (c10_only_first_discount_transmitted.2 itemTwoApps dVIP [dExtra] rfl).trans rfl⟩

/-- C9: a transport-successful draft-order or order creation that carries a
non-empty userErrors collection yields an error and no success value, and
the error message is "User errors: " followed by the concatenation of all
entries. -/
theorem c9_user_errors_fatal (α : Type) (r : α) (errs : List App.UserError)
    (h : errs ≠ []) :
    App.checkUserErrors r errs = .error (App.userErrorsMessage errs) ∧
    (∀ x : α, App.checkUserErrors r errs ≠ .ok x) ∧
    App.userErrorsMessage errs = specUserErrorsMessage errs := by
  have hlen : 0 < errs.length := List.length_pos.mpr h
  refine ⟨?_, ?_, ?_⟩
  · simp [App.checkUserErrors, hlen]
  · intro x
    simp [App.checkUserErrors, hlen]
  · rw [App.userErrorsMessage, specUserErrorsMessage, ← List.foldl_map]
    exact strFoldl_append_join _ _

/-- C9 witness: a concrete one-entry userErrors collection. -/
theorem c9_witness :
    App.checkUserErrors (0 : ℕ) errsEx = .error (App.userErrorsMessage errsEx) ∧
    App.checkUserErrors (0 : ℕ) errsEx ≠ .ok 7 ∧
    App.userErrorsMessage errsEx = "User errors: [base]: variant not found; " :=
  ⟨(c9_user_errors_fatal ℕ 0 errsEx (by decide)).1,
   (c9_user_errors_fatal ℕ 0 errsEx (by decide)).2.1 7,
   by decide⟩

/-- C1 counterexample: the GraphQL payload builder does not clamp at zero — a
$10.00 item with a $20.00 fixed-amount discount is emitted at −$10.00. -/
theorem c1_counterexample :
    CreateOrder.gqlDiscountedUnitPrice itemNeg = -10 ∧
    CreateOrder.gqlDiscountedUnitPrice itemNeg < 0 := by
  have hmeta : CreateOrder.isMetadataTitle ("Big Sale") = false := by decide
  have hne : ¬(("fixed_amount" : String) = "percentage") := by decide
  constructor <;>
    norm_num [CreateOrder.gqlDiscountedUnitPrice, CreateOrder.gqlLineCalc,
      CreateOrder.gqlApplyDiscount, CreateOrder.gqlOriginalPrice, itemNeg,
      hmeta, hne, parsePrice_num ("10.00") 10 (by decide),
      parsePrice_num ("20.00") 20 (by decide), parsePrice_empty, PStr.none']

/-- C1 amended: the builder performs no clamping (a fixed-amount discount can
drive the price strictly negative, see the counterexample); what does hold is
that sequential percentage discounts with values in [0, 100] keep a
nonnegative price nonnegative. -/
theorem c1_amended_no_clamp (item : CreateOrder.ItemData)
    (h0 : 0 ≤ CreateOrder.gqlOriginalPrice item)
    (hlen : 0 < item.discountApplications.length)
    (hall : ∀ d ∈ item.discountApplications, d.valueType = "percentage" ∧
      0 ≤ goParseFloat d.value ∧ goParseFloat d.value ≤ 100) :
    0 ≤ CreateOrder.gqlDiscountedUnitPrice item := by
  have hfold := gqlFold_nonneg item.discountApplications
    (CreateOrder.gqlOriginalPrice item) [] h0 hall
  simpa [CreateOrder.gqlDiscountedUnitPrice, CreateOrder.gqlLineCalc, hlen]
    using hfold

/-- C1 witness: the spec scenario — $100.00 with a 20% discount stays
nonnegative and equals $80.00. -/
theorem c1_witness :
    0 ≤ CreateOrder.gqlDiscountedUnitPrice item20 ∧
    CreateOrder.gqlDiscountedUnitPrice item20 = 80 := by
  constructor
  · apply c1_amended_no_clamp item20
    · norm_num [CreateOrder.gqlOriginalPrice, item20,
        parsePrice_num ("100.00") 100 (by decide), parsePrice_empty, PStr.none']
    · decide
    · intro d hd
      have hd' : d = ⟨"Promo", PStr.num ("20") 20, "percentage", PStr.none'⟩ := by
        simpa [item20] using hd
      subst hd'
      exact ⟨rfl, by norm_num [goParseFloat, PStr.num],
        by norm_num [goParseFloat, PStr.num]⟩
  · have hmeta : CreateOrder.isMetadataTitle ("Promo") = false := by decide
    have h100 : ¬(("100.00" : String) = "") := by decide
    norm_num [CreateOrder.gqlDiscountedUnitPrice, CreateOrder.gqlLineCalc,
      CreateOrder.gqlApplyDiscount, CreateOrder.gqlOriginalPrice, item20,
      hmeta, goParseFloat, PStr.num, parsePrice, h100, PStr.none']

/-- C4: the GraphQL line-item builder applies discounts sequentially — over
non-metadata percentage discounts the final price is the initial price times
the product of the factors (1 − value/100), each applied to the
already-reduced price — accumulates exactly one descriptive string of the
claimed form per applied discount, and, when any discount applied, emits the
original price with each character followed by the combining strikethrough
code point U+0336. -/
theorem c4_sequential_discounts_and_markup :
    (∀ (p : ℚ) (notes : List String)
      (ds : List CreateOrder.DiscountApplicationData),
      (∀ d ∈ ds, CreateOrder.isMetadataTitle d.title = false ∧
        d.valueType = "percentage") →
      (ds.foldl CreateOrder.gqlApplyDiscount (p, notes)).1 =
        p * (ds.map fun d => 1 - goParseFloat d.value / 100).prod) ∧
    (∀ (p : ℚ) (notes : List String)
      (ds : List CreateOrder.DiscountApplicationData),
      (ds.foldl CreateOrder.gqlApplyDiscount (p, notes)).2 =
        notes ++ (ds.filter specApplied).map specDiscountNote) ∧
    (∀ s : String, (CreateOrder.applyUnicodeStrikethrough s).data =
      (s.data.map fun c => [c, Char.ofNat 0x336]).flatten) ∧
    (∀ item : CreateOrder.ItemData,
      0 < (CreateOrder.gqlDiscountNotes item).length →
      CreateOrder.gqlOriginalPriceValue item =
        CreateOrder.applyUnicodeStrikethrough
          ("$" ++ fmt2 (CreateOrder.gqlOriginalPrice item))) := by
  refine ⟨?_, ?_, ?_, ?_⟩
  · intro p notes ds h
    exact gqlFold_pct_prod ds p notes h
  · intro p notes ds
    exact gqlFold_notes ds p notes
  · intro s
    show s.data.foldl (fun acc c => acc ++ [c, Char.ofNat 0x336]) [] =
      (s.data.map fun c => [c, Char.ofNat 0x336]).flatten
    rw [strikeFold_shape]
    simp
  · intro item h
    simp [CreateOrder.gqlOriginalPriceValue, h]

/-- C4 witness: two 20% and 10% discounts on $100.00. -/
theorem c4_witness :
    ((item2pct.discountApplications.foldl CreateOrder.gqlApplyDiscount
      (100, [])).1 =
      100 * (item2pct.discountApplications.map
        fun d => 1 - goParseFloat d.value / 100).prod) ∧
    ((item2pct.discountApplications.foldl CreateOrder.gqlApplyDiscount
      (100, [])).2 =
      [] ++ (item2pct.discountApplications.filter specApplied).map
        specDiscountNote) ∧
    ((CreateOrder.applyUnicodeStrikethrough ("$1")).data =
      ("$1".data.map fun c => [c, Char.ofNat 0x336]).flatten) ∧
    (CreateOrder.gqlOriginalPriceValue item2pct =
      CreateOrder.applyUnicodeStrikethrough
        ("$" ++ fmt2 (CreateOrder.gqlOriginalPrice item2pct))) := by
  have h := c4_sequential_discounts_and_markup
  have hyp1 : ∀ d ∈ item2pct.discountApplications,
      CreateOrder.isMetadataTitle d.title = false ∧
      d.valueType = "percentage" := by
    intro d hd
    simp only [item2pct, List.mem_cons, List.not_mem_nil, or_false] at hd
    rcases hd with rfl | rfl
    · exact ⟨by decide, rfl⟩
    · exact ⟨by decide, rfl⟩
  have hyp4 : 0 < (CreateOrder.gqlDiscountNotes item2pct).length := by
    have hA : CreateOrder.isMetadataTitle ("A") = false := by decide
    have hB : CreateOrder.isMetadataTitle ("B") = false := by decide
    norm_num [CreateOrder.gqlDiscountNotes, CreateOrder.gqlLineCalc,
      CreateOrder.gqlApplyDiscount, item2pct, hA, hB]
  exact ⟨h.1 100 [] item2pct.discountApplications hyp1,
    h.2.1 100 [] item2pct.discountApplications,
    h.2.2.1 ("$1"), h.2.2.2 item2pct hyp4⟩

/-- C5 counterexample: a lookup that returns zero records without error on
the first attempt is returned immediately — the claimed scenario (empty on
attempts 1–4, one record on attempt 5 → that record) does not happen; the
loop never reaches attempt 5. -/
theorem c5_counterexample :
    App.getFulfillmentOrdersWithRetry attemptsEmptyThenOne 5 3 =
      (.ok [], []) ∧
    (App.getFulfillmentOrdersWithRetry attemptsEmptyThenOne 5 3).1 ≠
      .ok [fo1] := by
  constructor
  · simp [App.getFulfillmentOrdersWithRetry, App.retryLoop,
      attemptsEmptyThenOne]
  · simp [App.getFulfillmentOrdersWithRetry, App.retryLoop,
      attemptsEmptyThenOne, fo1]

/-- C5 amended: the lookup retries up to 5 times with delays 3 s × 1.5 per
retry, but only when an attempt returns an error; an error-free result —
even an empty record list — is returned at once with no delay.  Errors on
the first four attempts and a successful fifth attempt yield that result
after the four delays 3, 4.5, 6.75 and 10.125 seconds. -/
theorem c5_amended_retry_on_errors_only :
    (∀ (attempt : ℕ → Except String (List App.FulfillmentOrderInfo))
      (res : List App.FulfillmentOrderInfo),
      attempt 0 = .ok res →
      App.getFulfillmentOrdersWithRetry attempt 5 3 = (.ok res, [])) ∧
    (∀ (attempt : ℕ → Except String (List App.FulfillmentOrderInfo))
      (e0 e1 e2 e3 : String) (res : List App.FulfillmentOrderInfo),
      attempt 0 = .error e0 → attempt 1 = .error e1 →
      attempt 2 = .error e2 → attempt 3 = .error e3 →
      attempt 4 = .ok res →
      App.getFulfillmentOrdersWithRetry attempt 5 3 =
        (.ok res, [3, 9/2, 27/4, 81/8])) := by
  constructor
  · intro attempt res h
    exact retryLoop_ok attempt 5 0 4 3 none [] res h
  · intro attempt e0 e1 e2 e3 res h0 h1 h2 h3 h4
    have s0 := retryLoop_err attempt 5 0 4 3 none [] e0 h0 (by norm_num)
    have s1 := retryLoop_err attempt 5 1 3 (3 * (3/2)) (some e0) [3] e1 h1
      (by norm_num)
    have s2 := retryLoop_err attempt 5 2 2 (3 * (3/2) * (3/2)) (some e1)
      [3, 3*(3/2)] e2 h2 (by norm_num)
    have s3 := retryLoop_err attempt 5 3 1 (3 * (3/2) * (3/2) * (3/2))
      (some e2) [3, 3*(3/2), 3*(3/2)*(3/2)] e3 h3 (by norm_num)
    have s4 := retryLoop_ok attempt 5 4 0
      (3 * (3/2) * (3/2) * (3/2) * (3/2)) (some e3)
      [3, 3*(3/2), 3*(3/2)*(3/2), 3*(3/2)*(3/2)*(3/2)] res h4
    rw [App.getFulfillmentOrdersWithRetry]
    rw [show (5:ℕ) = 4 + 1 from rfl, s0]
    rw [show (4:ℕ) = 3 + 1 from rfl]
    norm_num at s1 s2 s3 s4 ⊢
    rw [s1]
    rw [show (3:ℕ) = 2 + 1 from rfl, s2]
    rw [show (2:ℕ) = 1 + 1 from rfl, s3]
    rw [show (1:ℕ) = 0 + 1 from rfl, s4]

/-- C5 witness: an immediate error-free empty result, and four errors
followed by one record. -/
theorem c5_witness :
    App.getFulfillmentOrdersWithRetry (fun _ => .ok []) 5 3 = (.ok [], []) ∧
    App.getFulfillmentOrdersWithRetry attemptsErrThenOne 5 3 =
      (.ok [fo1], [3, 9/2, 27/4, 81/8]) := by
  constructor
  · exact c5_amended_retry_on_errors_only.1 (fun _ => .ok []) [] rfl
  · exact c5_amended_retry_on_errors_only.2 attemptsErrThenOne _ _ _ _ [fo1]
      rfl rfl rfl rfl rfl

/-- From a successful parse, the text was non-empty. -/
theorem parsePrice_text_ne (p : PStr) (q : ℚ) (h : parsePrice p = some q) :
    ¬ p.text = "" := by
  intro hh
  simp [parsePrice, hh] at h

/-- Go rounding differs from its argument by at most one half. -/
theorem abs_goRound_sub (q : ℚ) : |(goRound q : ℚ) - q| ≤ 1 / 2 := by
  by_cases hq : 0 ≤ q
  · rw [goRound, if_pos hq, abs_le]
    constructor
    · have := Int.lt_floor_add_one (q + 1 / 2)
      push_cast at this ⊢
      linarith
    · have := Int.floor_le (q + 1 / 2)
      push_cast at this ⊢
      linarith
  · rw [goRound, if_neg hq, abs_le]
    push_cast
    constructor
    · have := Int.floor_le (-q + 1 / 2)
      linarith
    · have := Int.lt_floor_add_one (-q + 1 / 2)
      push_cast at this
      linarith

/-- Rounding to two decimals moves a value by at most half a cent. -/
theorem abs_round2c_sub (q : ℚ) : |round2c q - q| ≤ 1 / 200 := by
  have h := abs_goRound_sub (q * 100)
  rw [round2c,
    show ((goRound (q * 100) : ℚ) / 100 - q) =
      ((goRound (q * 100) : ℚ) - q * 100) / 100 by ring,
    abs_div, show |(100 : ℚ)| = 100 by norm_num]
  linarith

/-- Rounding each summand to two decimals moves a list sum by at most half a
cent per element. -/
theorem sum_round2c_bound (l : List ℚ) :
    |(l.map round2c).sum - l.sum| ≤ (l.length : ℚ) * (1 / 200) := by
  induction l with
  | nil => simp
  | cons x l ih =>
    simp only [List.map_cons, List.sum_cons, List.length_cons]
    have h1 := abs_round2c_sub x
    calc |round2c x + (l.map round2c).sum - (x + l.sum)|
        = |(round2c x - x) + ((l.map round2c).sum - l.sum)| := by ring_nf
      _ ≤ |round2c x - x| + |(l.map round2c).sum - l.sum| := abs_add _ _
      _ ≤ 1 / 200 + (l.length : ℚ) * (1 / 200) := by linarith
      _ = ((l.length : ℚ) + 1) * (1 / 200) := by ring
      _ = (((l.length + 1 : ℕ)) : ℚ) * (1 / 200) := by push_cast; ring

/-- Pulling a constant factor out of a mapped list sum. -/
theorem list_sum_map_mul {α : Type} (c : ℚ) (f : α → ℚ) (l : List α) :
    (l.map fun x => c * f x).sum = c * (l.map f).sum := by
  induction l with
  | nil => simp
  | cons x l ih => simp [ih, mul_add]

/-- C2 counterexample: five equal $1.00 items and a $0.12 tax line — each
item receives round(0.024) = $0.02, the distributed total is $0.10, and the
claimed one-cent reconciliation fails (it is two cents short). -/
theorem c2_counterexample :
    DraftTax.totalPriceExTax oFive.items = 5 ∧
    DraftTax.distributedTaxSumFor oFive tl12 = 1 / 10 ∧
    ¬ (|DraftTax.distributedTaxSumFor oFive tl12 -
        (parsePrice tl12.price).getD 0| ≤ 1 / 100) := by
  have h1 : ¬(("1.00" : String) = "") := by decide
  have h12 : ¬(("0.12" : String) = "") := by decide
  have hitem : DraftTax.itemPriceExTax itemOne = 1 := by
    norm_num [DraftTax.itemPriceExTax, itemOne, parsePrice, PStr.num,
      PStr.none', h1]
  have htot : DraftTax.totalPriceExTax oFive.items = 5 := by
    show ((List.replicate 5 itemOne).map DraftTax.itemPriceExTax).sum = 5
    rw [List.map_replicate, hitem, List.sum_replicate]
    norm_num
  have hA : (parsePrice tl12.price).getD 0 = 3 / 25 := by
    norm_num [tl12, parsePrice, PStr.num, h12]
  have hamt : (DraftTax.taxPortionEntry oFive itemOne tl12).amount = 1 / 50 := by
    simp only [DraftTax.taxPortionEntry]
    rw [htot, hitem, hA]
    norm_num [round2c, goRound]
  have hsum : DraftTax.distributedTaxSumFor oFive tl12 = 1 / 10 := by
    show ((List.replicate 5 itemOne).map
      (fun item => (DraftTax.taxPortionEntry oFive item tl12).amount)).sum = 1 / 10
    rw [List.map_replicate]
    rw [hamt, List.sum_replicate]
    norm_num
  refine ⟨htot, hsum, ?_⟩
  rw [hsum, hA, not_le,
    show (1 : ℚ) / 10 - 3 / 25 = -(1 / 50) by norm_num, abs_neg,
    abs_of_pos (by norm_num : (0 : ℚ) < 1 / 50)]
  norm_num

/-- C2 amended: for a used order-level tax line on an order with positive
total pre-tax extended price, each line item is allocated the tax amount
times its pre-tax extended price over the total, rounded to 2 decimals; the
sum of the portions matches the tax amount only to within half a cent per
line item (n × $0.005) — not within one cent in general, as the
counterexample shows. -/
theorem c2_amended_proportional_rounding (o : DraftTax.OrderData)
    (tl : DraftTax.TaxLineData)
    (hT : 0 < DraftTax.totalPriceExTax o.items)
    (_hmem : tl ∈ o.taxLines) (_hused : tl.isUsed = true) :
    (∀ item, DraftTax.distributeTaxForItem o item =
      (o.taxLines.filter fun t => t.isUsed).map
        (DraftTax.taxPortionEntry o item)) ∧
    (∀ item, (DraftTax.taxPortionEntry o item tl).amount =
      round2c ((parsePrice tl.price).getD 0 *
        (DraftTax.itemPriceExTax item / DraftTax.totalPriceExTax o.items))) ∧
    |DraftTax.distributedTaxSumFor o tl - (parsePrice tl.price).getD 0| ≤
      (o.items.length : ℚ) * (1 / 200) := by
  refine ⟨?_, ?_, ?_⟩
  · intro item
    simp [DraftTax.distributeTaxForItem, hT]
  · intro item
    rfl
  · have hsum : DraftTax.distributedTaxSumFor o tl =
        ((o.items.map fun item => (parsePrice tl.price).getD 0 *
          (DraftTax.itemPriceExTax item / DraftTax.totalPriceExTax o.items)).map
            round2c).sum := by
      rw [DraftTax.distributedTaxSumFor, List.map_map]
      rfl
    have hfun : (fun item => (parsePrice tl.price).getD 0 *
        (DraftTax.itemPriceExTax item / DraftTax.totalPriceExTax o.items)) =
        fun item => ((parsePrice tl.price).getD 0 /
          DraftTax.totalPriceExTax o.items) * DraftTax.itemPriceExTax item := by
      funext item
      ring
    have hunrounded : (o.items.map fun item => (parsePrice tl.price).getD 0 *
        (DraftTax.itemPriceExTax item / DraftTax.totalPriceExTax o.items)).sum =
        (parsePrice tl.price).getD 0 := by
      rw [hfun, list_sum_map_mul]
      have hTsum : (o.items.map DraftTax.itemPriceExTax).sum =
          DraftTax.totalPriceExTax o.items := rfl
      rw [hTsum]
      exact div_mul_cancel₀ _ (ne_of_gt hT)
    rw [hsum]
    calc |((o.items.map fun item => (parsePrice tl.price).getD 0 *
          (DraftTax.itemPriceExTax item / DraftTax.totalPriceExTax o.items)).map
            round2c).sum - (parsePrice tl.price).getD 0|
        = |((o.items.map fun item => (parsePrice tl.price).getD 0 *
            (DraftTax.itemPriceExTax item /
              DraftTax.totalPriceExTax o.items)).map round2c).sum -
          (o.items.map fun item => (parsePrice tl.price).getD 0 *
            (DraftTax.itemPriceExTax item /
              DraftTax.totalPriceExTax o.items)).sum| := by rw [hunrounded]
      _ ≤ (((o.items.map fun item => (parsePrice tl.price).getD 0 *
            (DraftTax.itemPriceExTax item /
              DraftTax.totalPriceExTax o.items)).length : ℕ) : ℚ) *
            (1 / 200) := sum_round2c_bound _
      _ = (o.items.length : ℚ) * (1 / 200) := by rw [List.length_map]

/-- C2 witness: the spec scenario — one $100.00 item, one used $8.50 VAT
line. -/
theorem c2_witness :
    DraftTax.distributeTaxForItem oVAT item100 =
      (oVAT.taxLines.filter fun t => t.isUsed).map
        (DraftTax.taxPortionEntry oVAT item100) ∧
    |DraftTax.distributedTaxSumFor oVAT tlVAT -
      (parsePrice tlVAT.price).getD 0| ≤
      (oVAT.items.length : ℚ) * (1 / 200) := by
  have h100 : ¬(("100.00" : String) = "") := by decide
  have hT : 0 < DraftTax.totalPriceExTax oVAT.items := by
    norm_num [DraftTax.totalPriceExTax, DraftTax.itemPriceExTax, oVAT,
      item100, parsePrice, PStr.none', PStr.num, h100]
  have h := c2_amended_proportional_rounding oVAT tlVAT hT (by simp [oVAT]) rfl
  exact ⟨h.1 item100, h.2.2⟩

/-- C8 counterexample: with no explicit applications, TotalDiscounts "10.00"
and a positive subtotal "100.00", the GraphQL payload builder emits a
fixed-amount "Order Discount" code — not the percentage the claim's middle
branch prescribes. -/
theorem c8_counterexample :
    CreateOrder.buildGqlOrderDiscountCode oc8 =
      some (.fixedAmount ("Order Discount") (fmt2 10)) ∧
    CreateOrder.isPercentageCode (CreateOrder.buildGqlOrderDiscountCode oc8) =
      false ∧
    fmt2 10 = "10.00" := by
  have h10 : ¬(("10.00" : String) = "") := by decide
  refine ⟨?_, ?_, ?_⟩
  · simp [CreateOrder.buildGqlOrderDiscountCode, oc8, parsePrice, PStr.num, h10]
  · simp [CreateOrder.isPercentageCode, CreateOrder.buildGqlOrderDiscountCode,
      oc8, parsePrice, PStr.num, h10]
  · have hg : goRound ((10 : ℚ) * 10 ^ 2) = 1000 := by norm_num [goRound]
    simp [fmt2, fmtDec, hg]
    decide

/-- C8 amended: the draft-order builders follow the three-way fallback
(first explicit application; else percentage total ÷ subtotal × 100 rounded
to 2 decimals when the subtotal parses positive; else fixed amount), and so
does the test_draft_order_tax order-discount builder — but the GraphQL
payload builder's order-level discount has no percentage-derivation branch:
with no explicit application it always emits a fixed-amount code of the
total-discount value, even when a positive subtotal is present. -/
theorem c8_amended_three_way_fallback :
    (∀ (o : CreateOrder.OrderData) (d : CreateOrder.DiscountApplicationData)
      (rest : List CreateOrder.DiscountApplicationData),
      o.discountApplications = d :: rest →
      d.valueType = "percentage" →
      CreateOrder.buildDraftAppliedDiscount o =
        some ⟨d.title, d.title, "PERCENTAGE", round2c (goParseFloat d.value)⟩) ∧
    (∀ (o : CreateOrder.OrderData) (td st : ℚ),
      o.discountApplications = [] →
      parsePrice o.totalDiscounts = some td →
      parsePrice o.subtotalPrice = some st → 0 < st →
      CreateOrder.buildDraftAppliedDiscount o =
        some ⟨"Order Discount", "Discount: " ++ o.totalDiscounts.text,
          "PERCENTAGE", round2c (td / st * 100)⟩) ∧
    (∀ (o : CreateOrder.OrderData) (td : ℚ),
      o.discountApplications = [] →
      parsePrice o.totalDiscounts = some td →
      parsePrice o.subtotalPrice = none →
      CreateOrder.buildDraftAppliedDiscount o =
        some ⟨"Order Discount", "Discount: " ++ o.totalDiscounts.text,
          "FIXED_AMOUNT", round2c td⟩) ∧
    (∀ (o : CreateOrder.OrderData) (td : ℚ),
      o.discountApplications = [] →
      parsePrice o.totalDiscounts = some td →
      CreateOrder.buildGqlOrderDiscountCode o =
        some (.fixedAmount ("Order Discount") (fmt2 td))) ∧
    (∀ (o : DraftTax.OrderData) (td st : ℚ),
      o.discountApplications = [] →
      parsePrice o.totalDiscounts = some td →
      parsePrice o.subtotalPrice = some st → 0 < st →
      DraftTax.buildOrderDiscountCode o =
        some (.percentage ("Order Discount") (round2c (td / st * 100)))) := by
  refine ⟨?_, ?_, ?_, ?_, ?_⟩
  · intro o d rest happs hpct
    simp [CreateOrder.buildDraftAppliedDiscount, happs, hpct]
  · intro o td st happs htd hst hpos
    have htext := parsePrice_text_ne _ _ htd
    simp [CreateOrder.buildDraftAppliedDiscount, happs, htd, hst, htext, hpos]
  · intro o td happs htd hst
    have htext := parsePrice_text_ne _ _ htd
    simp [CreateOrder.buildDraftAppliedDiscount, happs, htd, hst, htext]
  · intro o td happs htd
    have htext := parsePrice_text_ne _ _ htd
    simp [CreateOrder.buildGqlOrderDiscountCode, happs, htd, htext]
  · intro o td st happs htd hst hpos
    have htext := parsePrice_text_ne _ _ htd
    simp [DraftTax.buildOrderDiscountCode, happs, htd, hst, htext, hpos]

/-- C8 witness: concrete orders exercising the first-application branch, the
percentage branch, the fixed branch, the GraphQL two-way behaviour and the
test_draft_order_tax percentage branch. -/
theorem c8_witness :
    CreateOrder.buildDraftAppliedDiscount oTwoApps =
      some ⟨"VIP", "VIP", "PERCENTAGE", round2c (goParseFloat dVIP.value)⟩ ∧
    CreateOrder.buildDraftAppliedDiscount oc8 =
      some ⟨"Order Discount", "Discount: " ++ oc8.totalDiscounts.text,
        "PERCENTAGE", round2c (10 / 100 * 100)⟩ ∧
    CreateOrder.buildDraftAppliedDiscount oc8NoSub =
      some ⟨"Order Discount", "Discount: " ++ oc8NoSub.totalDiscounts.text,
        "FIXED_AMOUNT", round2c 10⟩ ∧
    CreateOrder.buildGqlOrderDiscountCode oc8 =
      some (.fixedAmount ("Order Discount") (fmt2 10)) ∧
    DraftTax.buildOrderDiscountCode oDT =
      some (.percentage ("Order Discount") (round2c (10 / 100 * 100))) := by
  have h10 : ¬(("10.00" : String) = "") := by decide
  have h100 : ¬(("100.00" : String) = "") := by decide
  have htd8 : parsePrice oc8.totalDiscounts = some 10 := by
    simp [oc8, parsePrice, PStr.num, h10]
  have hst8 : parsePrice oc8.subtotalPrice = some 100 := by
    simp [oc8, parsePrice, PStr.num, h100]
  have htdN : parsePrice oc8NoSub.totalDiscounts = some 10 := by
    simp [oc8NoSub, parsePrice, PStr.num, h10]
  have hstN : parsePrice oc8NoSub.subtotalPrice = none := by
    simp [oc8NoSub, parsePrice, PStr.none']
  have htdD : parsePrice oDT.totalDiscounts = some 10 := by
    simp [oDT, parsePrice, PStr.num, h10]
  have hstD : parsePrice oDT.subtotalPrice = some 100 := by
    simp [oDT, parsePrice, PStr.num, h100]
  exact ⟨c8_amended_three_way_fallback.1 oTwoApps dVIP [dExtra] rfl rfl,
    c8_amended_three_way_fallback.2.1 oc8 10 100 rfl htd8 hst8 (by norm_num),
    c8_amended_three_way_fallback.2.2.1 oc8NoSub 10 rfl htdN hstN,
    c8_amended_three_way_fallback.2.2.2.1 oc8 10 rfl htd8,
    c8_amended_three_way_fallback.2.2.2.2 oDT 10 100 rfl htdD hstD
      (by norm_num)⟩
